import Mathlib

/-!
Verification development for the Teleforce-Calendly webhook adapter.

The repository holds three near-duplicate variants of the adapter:
  * `src/index.js` (the "index" variant),
  * `src/unnamed/part_000`, first file (the "v1" variant, lines 1-367),
  * `src/unnamed/part_000`, second file (the "v2" variant, lines 368-633).

Parsed JSON bodies are modelled by the `Json` inductive below; JavaScript
`undefined` is modelled as `Option.none` wherever a value may be absent,
while JSON `null` is the explicit `Json.null` constructor.  JavaScript
truthiness, `||`, `??`, `?.` access and `String()` coercion are each given
their own definition.  Code that can raise a `TypeError` at runtime is
embedded as an `Except String` computation.  JSON numbers are modelled as
integers (no claim in scope exercises fractional values), and `\s` /
`toLowerCase` are modelled on ASCII, which covers every string the code
manipulates.
-/

/-- A parsed JSON value.  Object fields keep their textual order; duplicate
keys resolve to the last occurrence, as with JavaScript `JSON.parse`. -/
inductive Json where
  | null
  | bool (b : Bool)
  | num (n : Int)
  | str (s : String)
  | arr (elems : List Json)
  | obj (fields : List (String × Json))

/-- Association-list lookup where the last binding wins, matching JavaScript
object-property assignment order (later assignments override earlier ones). -/
def lastAssoc {α : Type} : List (String × α) → String → Option α
  | [], _ => none
  | (k, v) :: rest, key =>
    match lastAssoc rest key with
    | some r => some r
    | none => if k == key then some v else none

/-- Property access `j[k]` on a JSON value: `none` (undefined) unless `j` is
an object holding the key. -/
def Json.get? : Json → String → Option Json
  | .obj fields, k => lastAssoc fields k
  | _, _ => none

/-- Optional-chaining access `o?.k`: undefined propagates, and access on a
non-object yields undefined. -/
def optGet (o : Option Json) (k : String) : Option Json :=
  match o with
  | none => none
  | some j => j.get? k

/-- JavaScript truthiness of a possibly-undefined value. -/
def jsTruthy : Option Json → Bool
  | none => false
  | some .null => false
  | some (.bool b) => b
  | some (.num n) => !(n == 0)
  | some (.str s) => !(s == "")
  | some (.arr _) => true
  | some (.obj _) => true

/-- JavaScript `a || b` on possibly-undefined values. -/
def jsOrJ (a b : Option Json) : Option Json :=
  if jsTruthy a then a else b

/-- JavaScript `a || b` where the fallback is a known value, so the result is
a definite value. -/
def jsOrV (a : Option Json) (b : Json) : Json :=
  match a with
  | some v => if jsTruthy (some v) then v else b
  | none => b

/-- JavaScript `a ?? b` (nullish coalescing) with a definite fallback. -/
def jsNullish (a : Option Json) (b : Json) : Json :=
  match a with
  | none => b
  | some .null => b
  | some v => v

/-- JavaScript `a || b` on possibly-undefined strings (used for table lookups
whose values are strings). -/
def jsOrStr (a : Option String) (b : String) : String :=
  match a with
  | none => b
  | some s => if s == "" then b else s

mutual

/-- String coercion `String(v)` of a definite JSON value.  Arrays join their
elements with commas, mapping `null` elements to the empty string; objects
render as the standard object tag. -/
def jsToString : Json → String
  | .null => "null"
  | .bool b => if b then "true" else "false"
  | .num n => toString n
  | .str s => s
  | .arr xs => jsArrToString xs
  | .obj _ => "[object Object]"

/-- Comma-joined rendering of array elements for `String(v)`. -/
def jsArrToString : List Json → String
  | [] => ""
  | [.null] => ""
  | [x] => jsToString x
  | .null :: y :: rest => "," ++ jsArrToString (y :: rest)
  | x :: y :: rest => jsToString x ++ "," ++ jsArrToString (y :: rest)

end

/-- String coercion of a possibly-undefined value: `String(undefined)` is the
literal text used as a property key by the index variant. -/
def jsToStringU : Option Json → String
  | none => "undefined"
  | some v => jsToString v

/-- ASCII lower-casing, modelling `toLowerCase` on the ASCII strings the
adapter compares. -/
def jsToLower (s : String) : String :=
  String.mk (s.data.map Char.toLower)

/-- Prefix test on character lists. -/
def isPrefixList : List Char → List Char → Bool
  | [], _ => true
  | _ :: _, [] => false
  | a :: as, b :: bs => a == b && isPrefixList as bs

/-- Substring test on character lists, modelling `String.prototype.includes`. -/
def containsList (needle : List Char) : List Char → Bool
  | [] => needle.isEmpty
  | c :: rest => isPrefixList needle (c :: rest) || containsList needle rest

/-- JavaScript `hay.includes(needle)`. -/
def strIncludes (hay needle : String) : Bool :=
  containsList needle.data hay.data

/-- Replace every maximal whitespace run by the single character `rep`,
modelling `replace` with a global whitespace-run pattern.  The flag records
whether the previous character belonged to a run already emitted. -/
def squash (rep : Char) : List Char → Bool → List Char
  | [], _ => []
  | c :: rest, afterWs =>
    if c.isWhitespace then
      if afterWs then squash rep rest true
      else rep :: squash rep rest true
    else c :: squash rep rest false

/-- Whitespace-run replacement on strings. -/
def replaceWsRuns (s : String) (rep : Char) : String :=
  String.mk (squash rep s.data false)

/-- Trim leading whitespace from a character list. -/
def dropWsLeft (l : List Char) : List Char :=
  l.dropWhile Char.isWhitespace

/-- JavaScript `trim()`: strip whitespace from both ends. -/
def jsTrim (s : String) : String :=
  String.mk ((dropWsLeft ((dropWsLeft s.data.reverse)).reverse))

/-- Split a character list on a separator character, modelling
`String.prototype.split` with a one-character separator. -/
def splitOnChar (sep : Char) : List Char → List (List Char)
  | [] => [[]]
  | c :: rest =>
    let r := splitOnChar sep rest
    if c == sep then [] :: r
    else
      match r with
      | [] => [[c]]
      | h :: t => (c :: h) :: t

/-- JavaScript `s.split(sep)` for a one-character separator. -/
def jsSplit (s : String) (sep : Char) : List String :=
  (splitOnChar sep s.data).map String.mk

/-- JavaScript `s.startsWith(pre)`. -/
def strStarts (s pre : String) : Bool :=
  isPrefixList pre.data s.data

/-!
Static configuration tables, shared verbatim by all three variants.
-/

/-- The `SEGMENT_MAPPING` table: event name (or segment key) to TeleForce
segment id. -/
def SEGMENT_MAPPING : List (String × String) :=
  [("CRO", "SEG07ootjebf6hm231767941287541"),
   ("Performance", "SEGtgewk86jmjb31767941272012"),
   ("default_segment", "SEGplj45zsru74b1767770566946")]

/-- Lookup in `SEGMENT_MAPPING` (keys are unique, so first match suffices). -/
def smLookup (k : String) : Option String :=
  (SEGMENT_MAPPING.find? (fun p => p.1 == k)).map (fun p => p.2)

/-- The table's `default_segment` entry, referenced directly by the code as
`SEGMENT_MAPPING.default_segment`. -/
def defaultSegmentId : String := "SEGplj45zsru74b1767770566946"

/-- The table's `CRO` entry. -/
def croSegmentId : String := "SEG07ootjebf6hm231767941287541"

/-- Per-form ordered fallback key lists for the standard city/address
fields. -/
structure FormConfig where
  city : List String
  address : List String

/-- The `FORM_MAPPINGS` table. -/
def FORM_MAPPINGS : List (String × FormConfig) :=
  [("CRO", ⟨["City", "city"], ["Address", "address"]⟩),
   ("Performance", ⟨["City", "city"], ["Address", "address"]⟩)]

/-- Lookup in `FORM_MAPPINGS`. -/
def fmLookup (k : String) : Option FormConfig :=
  (FORM_MAPPINGS.find? (fun p => p.1 == k)).map (fun p => p.2)

/-- The skip list used by the exclusion policy of the index and v1 variants. -/
def skipFields : List String := ["City", "city", "Address", "address"]

/-!
Signature verification (v1 variant, `verifyCalendlySignature`).  The
HMAC-SHA256 primitive is an external library call, passed in as a function
parameter `hmacHex : key → message → hex digest`; every property proved below
holds for an arbitrary such function.
-/

/-- One hex digit, or `none` for a non-hex character. -/
def hexDigit? (c : Char) : Option Nat :=
  if '0' ≤ c ∧ c ≤ '9' then some (c.toNat - '0'.toNat)
  else if 'a' ≤ c ∧ c ≤ 'f' then some (c.toNat - 'a'.toNat + 10)
  else if 'A' ≤ c ∧ c ≤ 'F' then some (c.toNat - 'A'.toNat + 10)
  else none

/-- Byte decoding of a hex string, stopping at the first invalid or
incomplete pair, modelling `Buffer.from(s, 'hex')`. -/
def hexToBytes : List Char → List Nat
  | c1 :: c2 :: rest =>
    match hexDigit? c1, hexDigit? c2 with
    | some h, some l => (16 * h + l) :: hexToBytes rest
    | _, _ => []
  | _ => []

/-- JavaScript truthiness of a possibly-undefined string (headers and keys
may be absent, and the empty string is falsy). -/
def jsTruthyStr : Option String → Bool
  | none => false
  | some s => !(s == "")

/-- Element 1 of `s.split('=')`, defaulting to the empty string (the call
sites below always contain a separator, so the default is never used). -/
def splitEqSecond (s : String) : String :=
  ((jsSplit s '=').drop 1).headD ""

/-- `verifyCalendlySignature(rawBody, signatureHeader, signingKey)` from the
v1 variant.  Header format `t=timestamp,v1=signature`; the signature is the
hex HMAC of the timestamp, a dot, and the raw body; the comparison decodes
both hex strings to bytes, rejects on length mismatch, then compares
byte-wise (modelling `crypto.timingSafeEqual`). -/
def verifyCalendlySignature (hmacHex : String → String → String)
    (rawBody : String) (signatureHeader signingKey : Option String) : Bool :=
  if !(jsTruthyStr signatureHeader) || !(jsTruthyStr signingKey) then false
  else
    let parts := jsSplit (signatureHeader.getD "") ','
    let tPart := parts.find? (fun p => strStarts (jsTrim p) "t=")
    let v1Part := parts.find? (fun p => strStarts (jsTrim p) "v1=")
    match tPart, v1Part with
    | some tp, some vp =>
      let t := splitEqSecond tp
      let sig := splitEqSecond vp
      let payloadToSign := t ++ "." ++ rawBody
      let expected := hmacHex (signingKey.getD "") payloadToSign
      let a := hexToBytes expected.data
      let b := hexToBytes sig.data
      if !(a.length == b.length) then false
      else a == b
    | _, _ => false

/-!
Normalizers.  Both part_000 variants expose a `normalizeCalendlyWebhook`;
the index variant destructures the body inline (modelled inside its
handler).
-/

/-- Result of webhook-body normalization. -/
structure Normalized where
  event : Option Json
  invitee : Option Json
  eventData : Option Json
  questionsAnswers : Option Json

/-- `normalizeCalendlyWebhook` of the v1 variant (part_000 lines 107-128):
each field is resolved from `payload` first, falling back to `data`
(questions fall back to `data.payload.questions_and_answers`, then to the
empty array). -/
def normalize1 (body : Json) : Normalized :=
  let payload := body.get? "payload"
  let data := body.get? "data"
  { event := body.get? "event"
    invitee := jsOrJ (optGet payload "invitee") (optGet data "invitee")
    eventData := jsOrJ (optGet payload "event") (optGet data "event")
    questionsAnswers :=
      jsOrJ (optGet payload "questions_and_answers")
        (jsOrJ (optGet (optGet payload "questions_and_answers") "collection")
          (jsOrJ (optGet (optGet data "payload") "questions_and_answers")
            (some (.arr [])))) }

/-- `normalizeCalendlyWebhook` of the v2 variant (part_000 lines 426-439):
the invitee is the `payload` object itself, the event data is
`payload.scheduled_event`, and the questions are
`payload.questions_and_answers`; no other location is consulted. -/
def normalize2 (body : Json) : Normalized :=
  let payload := body.get? "payload"
  { event := body.get? "event"
    invitee := jsOrJ payload (some .null)
    eventData := jsOrJ (optGet payload "scheduled_event") (some .null)
    questionsAnswers := jsOrJ (optGet payload "questions_and_answers") (some (.arr [])) }

/-!
Form-answer map and field picking.
-/

/-- JSON field `question` of a Q/A entry. -/
def qaQuestion (qa : Json) : Option Json := qa.get? "question"

/-- JSON field `answer` of a Q/A entry. -/
def qaAnswer (qa : Json) : Option Json := qa.get? "answer"

/-- The stored value (possibly an explicitly stored undefined answer) that
the guarded `formAnswers[qa.question] = qa.answer` loop of the part_000
variants leaves under key `k`: the answer of the last entry with a truthy
question whose text coerces to `k`, if any. -/
def lastStore : List Json → String → Option (Option Json)
  | [], _ => none
  | qa :: rest, k =>
    match lastStore rest k with
    | some r => some r
    | none =>
      match qaQuestion qa with
      | some q =>
        if jsTruthy (some q) && (jsToStringU (some q) == k) then some (qaAnswer qa)
        else none
      | none => none

/-- The form-answers lookup function of the part_000 variants: a stored
undefined answer and an absent key are indistinguishable to the readers. -/
def faFun (qas : List Json) : String → Option Json :=
  fun k => (lastStore qas k).bind id

/-- `pickFirst(formAnswers, keys)` of the part_000 variants: the first key
whose value is defined, non-null and non-empty after `String(...).trim()`,
else the empty string. -/
def pickFirst (fa : String → Option Json) : List String → Json
  | [] => .str ""
  | k :: rest =>
    match fa k with
    | none => pickFirst fa rest
    | some .null => pickFirst fa rest
    | some v => if jsTrim (jsToString v) == "" then pickFirst fa rest else v

/-- City selection of the part_000 variants: the per-form key list when the
config key is present in `FORM_MAPPINGS`, else the generic list. -/
def mapCity (fa : String → Option Json) (cfgKey : String) : Json :=
  match fmLookup cfgKey with
  | some cfg => pickFirst fa cfg.city
  | none => pickFirst fa ["City", "city"]

/-- Address selection of the part_000 variants. -/
def mapAddress (fa : String → Option Json) (cfgKey : String) : Json :=
  match fmLookup cfgKey with
  | some cfg => pickFirst fa cfg.address
  | none => pickFirst fa ["Address", "address"]

/-!
Q/A metadata builders.  Entries are processed left to right; a truthy
non-string question makes the JavaScript `replace` call throw, modelled as
an `Except.error`.
-/

/-- One `otherparams` entry. -/
structure MetaEntry where
  meta_key : String
  meta_value : Option Json

/-- The Q/A part of `otherparams` in the v1 variant (part_000 lines
242-254): entries with a falsy question are skipped, entries whose question
is one of the city/address keys are excluded, and each remaining question
contributes one entry with whitespace runs replaced by underscores in the
key and a nullish-defaulted answer as value. -/
def v1QaMeta : List Json → Except String (List MetaEntry)
  | [] => .ok []
  | qa :: rest =>
    match qaQuestion qa with
    | some (.str q) =>
      if q == "" then v1QaMeta rest
      else if skipFields.contains q then v1QaMeta rest
      else
        match v1QaMeta rest with
        | .ok tail =>
          .ok (⟨replaceWsRuns q '_', some (jsNullish (qaAnswer qa) (.str ""))⟩ :: tail)
        | .error e => .error e
    | none => v1QaMeta rest
    | some .null => v1QaMeta rest
    | some (.bool false) => v1QaMeta rest
    | some (.bool true) => .error "TypeError"
    | some (.num n) => if n == 0 then v1QaMeta rest else .error "TypeError"
    | some (.arr _) => .error "TypeError"
    | some (.obj _) => .error "TypeError"

/-- The Q/A part of `otherparams` in the v2 variant (part_000 lines
574-582): identical to the v1 builder but without the city/address
exclusion. -/
def v2QaMeta : List Json → Except String (List MetaEntry)
  | [] => .ok []
  | qa :: rest =>
    match qaQuestion qa with
    | some (.str q) =>
      if q == "" then v2QaMeta rest
      else
        match v2QaMeta rest with
        | .ok tail =>
          .ok (⟨replaceWsRuns q '_', some (jsNullish (qaAnswer qa) (.str ""))⟩ :: tail)
        | .error e => .error e
    | none => v2QaMeta rest
    | some .null => v2QaMeta rest
    | some (.bool false) => v2QaMeta rest
    | some (.bool true) => .error "TypeError"
    | some (.num n) => if n == 0 then v2QaMeta rest else .error "TypeError"
    | some (.arr _) => .error "TypeError"
    | some (.obj _) => .error "TypeError"

/-- Fixed metadata appended by the v1 variant (part_000 lines 257-262). -/
def v1FixedMeta (eventTitle : Json) (startTime : Option Json) (email : Json)
    (tz : Option Json) : List MetaEntry :=
  [⟨"Calendly_Event_Title", some eventTitle⟩,
   ⟨"Calendly_Event_Start", some (jsOrV startTime (.str ""))⟩,
   ⟨"Calendly_Invitee_Email", some email⟩,
   ⟨"Calendly_Invitee_Timezone", some (jsOrV tz (.str ""))⟩]

/-- Fixed metadata appended by the v2 variant (part_000 lines 585-590). -/
def v2FixedMeta (eventTypeName uri startTime endTime : Option Json) : List MetaEntry :=
  [⟨"Calendly_EventType_Name", some (jsOrV eventTypeName (.str ""))⟩,
   ⟨"Calendly_ScheduledEvent_URI", some (jsOrV uri (.str ""))⟩,
   ⟨"Calendly_Scheduled_Start", some (jsOrV startTime (.str ""))⟩,
   ⟨"Calendly_Scheduled_End", some (jsOrV endTime (.str ""))⟩]

/-- Full `otherparams` of the v1 variant: Q/A entries first, fixed metadata
appended after. -/
def v1Otherparams (qas : List Json) (fixed : List MetaEntry) :
    Except String (List MetaEntry) :=
  match v1QaMeta qas with
  | .ok l => .ok (l ++ fixed)
  | .error e => .error e

/-- Full `otherparams` of the v2 variant. -/
def v2Otherparams (qas : List Json) (fixed : List MetaEntry) :
    Except String (List MetaEntry) :=
  match v2QaMeta qas with
  | .ok l => .ok (l ++ fixed)
  | .error e => .error e

/-!
Segment resolution and event-type lookup (v2 variant).
-/

/-- `resolveSegment(eventTypeName)` of the v2 variant (part_000 lines
474-487).  The input may be null (modelled `none`) or any JSON value; the
code lower-cases `eventTypeName || ''`, so a truthy non-string input makes
`toLowerCase` throw.  Returns the pair of segment key and segment id. -/
def resolveSegment (eventTypeName : Option Json) : Except String (String × String) :=
  match jsOrV eventTypeName (.str "") with
  | .str s =>
    let name := jsToLower s
    let segmentKey : Option String :=
      if strIncludes name "cro" then some "CRO"
      else if strIncludes name "performance" then some "Performance"
      else none
    let segmentId := jsOrStr (segmentKey.bind smLookup) defaultSegmentId
    .ok (jsOrStr segmentKey "default_segment", segmentId)
  | _ => .error "TypeError"

/-- `getEventTypeName(eventTypeUrl)` of the v2 variant (part_000 lines
446-466).  The network fetch is an oracle: `Except.error` stands for any
network error, timeout or non-2xx response (all caught and turned into
null), `Except.ok d` for a response with body `d`.  A falsy URL returns
null without fetching; a successful fetch yields
`resp.data?.resource?.name || null`. -/
def getEventTypeName (eventTypeUrl : Option Json) (fetch : Except Unit Json) :
    Option Json :=
  if !(jsTruthy eventTypeUrl) then none
  else
    match fetch with
    | .error _ => none
    | .ok d =>
      let name := optGet (optGet (some d) "resource") "name"
      if jsTruthy name then name else none

/-!
Lead-name mapping.
-/

/-- JavaScript `join(' ')` on a list of already-coerced strings. -/
def joinSpace : List String → String
  | [] => ""
  | [x] => x
  | x :: y :: rest => x ++ " " ++ joinSpace (y :: rest)

/-- The two-element array filter-join `[first, last].filter(Boolean).join(' ')`
of the v1 variant: falsy entries are dropped, the rest are string-coerced
and joined with one space. -/
def v1JoinedName (inv : Json) : String :=
  joinSpace (([inv.get? "first_name", inv.get? "last_name"].filter jsTruthy).map
    (fun o => jsToStringU o))

/-- `fullName` of the v1 variant (part_000 lines 212-215):
`invitee.name || [first, last].filter(Boolean).join(' ') || 'Unknown'`. -/
def v1FullName (inv : Json) : Json :=
  jsOrV (inv.get? "name") (jsOrV (some (.str (v1JoinedName inv))) (.str "Unknown"))

/-- `fullName` of the index variant (index.js line 76) and the v2 variant
(part_000 line 531): `invitee.name || 'Unknown'`. -/
def fullNameOrUnknown (inv : Json) : Json :=
  jsOrV (inv.get? "name") (.str "Unknown")

/-!
Mobile extraction of the v2 variant (part_000 lines 533-536).
-/

/-- The `find` callback scan: the first entry whose `(q.question || '')`
lower-cases to a string containing `mobile`.  A null entry or a truthy
non-string question makes the callback throw. -/
def findMobile : List Json → Except String (Option Json)
  | [] => .ok none
  | q :: rest =>
    match q with
    | .null => .error "TypeError"
    | _ =>
      match jsOrV (q.get? "question") (.str "") with
      | .str s =>
        if strIncludes (jsToLower s) "mobile" then .ok (some q)
        else findMobile rest
      | _ => .error "TypeError"

/-- `mobile` of the v2 variant: the found answer (or the empty string),
whitespace-collapsed and trimmed; `find` on a non-array throws, as does
`replace` on a truthy non-string answer. -/
def v2Mobile (qasJ : Option Json) : Except String Json :=
  match qasJ with
  | some (.arr l) =>
    match findMobile l with
    | .error e => .error e
    | .ok hit =>
      match jsOrV (optGet hit "answer") (.str "") with
      | .str s => .ok (.str (jsTrim (replaceWsRuns s ' ')))
      | _ => .error "TypeError"
  | _ => .error "TypeError"

/-!
Webhook handlers.  Each handler is a pure function of the parsed body plus
oracles for the two outbound calls (the event-type fetch of the v2 variant
and the downstream forward POST); the result records the HTTP status, the
response branch, the resolved segment id when the response carries one, the
number of forward POSTs and event-type fetches performed, and the payload
sent downstream when one was sent.
-/

/-- Segment id of the v1 variant (part_000 line 196):
`SEGMENT_MAPPING[eventTitle] || SEGMENT_MAPPING.default_segment`. -/
def v1SegmentId (eventTitle : Json) : String :=
  jsOrStr (smLookup (jsToString eventTitle)) defaultSegmentId

/-- Strict equality `x === s` of a possibly-undefined value with a string
literal. -/
def isStrV (x : Option Json) (s : String) : Bool :=
  match x with
  | some (.str t) => t == s
  | _ => false

/-- The JSON array elements of a value, when it is an array. -/
def asArray : Option Json → Option (List Json)
  | some (.arr l) => some l
  | _ => none

/-- Member access `o.k` without optional chaining: throws on undefined or
null, otherwise yields the object to read from. -/
def jsRequire : Option Json → Except String Json
  | none => .error "TypeError"
  | some .null => .error "TypeError"
  | some j => .ok j

/-- Response branches of the webhook handlers. -/
inductive Resp where
  | badJson
  | unauthorized
  | ignored
  | missingBoth
  | missingInvitee
  | missingEvent
  | sent
  | failed

/-- The response message attached to each branch by the source. -/
def Resp.message : Resp → String
  | .badJson => "Invalid JSON body"
  | .unauthorized => "Invalid webhook signature"
  | .ignored => "Event ignored"
  | .missingBoth => "Missing invitee/event in payload"
  | .missingInvitee => "Missing invitee in payload"
  | .missingEvent => "Missing scheduled_event in payload"
  | .sent => "Lead sent to TeleForce"
  | .failed => "error"

/-- The TeleForce lead payload. -/
structure LeadPayload where
  name : Json
  email : Json
  mobile : Json
  city : Json
  address : Json
  usergroupid : String
  segmentid : String
  otherparams : List MetaEntry

/-- Observable outcome of one webhook request. -/
structure HandlerOut where
  status : Nat
  resp : Resp
  segmentid : Option String
  posts : Nat
  fetches : Nat
  sentPayload : Option LeadPayload

/-- The `POST /api/webhook` handler of the v1 variant (part_000 lines
142-296).  `body?` is the result of `safeJsonParse` (`none` on a parse
error; a falsy parsed value is also rejected as invalid JSON by the
`if (!body)` guard).  `sigEnabled`/`sigOk` model the configuration flag and
the outcome of `verifyCalendlySignature`; `forwardOk` models the downstream
POST outcome. -/
def variant1Handler (sigEnabled sigOk : Bool) (body? : Option Json)
    (accountId : String) (forwardOk : Bool) : HandlerOut :=
  match body? with
  | none => ⟨400, .badJson, none, 0, 0, none⟩
  | some body =>
    if !(jsTruthy (some body)) then ⟨400, .badJson, none, 0, 0, none⟩
    else if sigEnabled && !sigOk then ⟨401, .unauthorized, none, 0, 0, none⟩
    else
      let n := normalize1 body
      if !(isStrV n.event "invitee.created") then ⟨200, .ignored, none, 0, 0, none⟩
      else
        match n.invitee, n.eventData with
        | some inv, some ed =>
          if !(jsTruthy (some inv)) || !(jsTruthy (some ed)) then
            ⟨200, .missingBoth, none, 0, 0, none⟩
          else
            let eventTitle : Json :=
              jsOrV (ed.get? "name") (jsOrV (ed.get? "event_type") (.str ""))
            let titleKey := jsToString eventTitle
            let segmentId := v1SegmentId eventTitle
            let qaList := (asArray n.questionsAnswers).getD []
            let fa := faFun qaList
            let email := jsOrV (inv.get? "email") (.str "")
            let mobile :=
              jsOrV (inv.get? "text_reminder_number")
                (jsOrV (inv.get? "phone_number") (.str ""))
            let city := mapCity fa titleKey
            let address := mapAddress fa titleKey
            match v1Otherparams qaList
                (v1FixedMeta eventTitle (ed.get? "start_time") email
                  (inv.get? "timezone")) with
            | .error _ => ⟨500, .failed, none, 0, 0, none⟩
            | .ok ops =>
              let payload : LeadPayload :=
                ⟨v1FullName inv, email, mobile, city, address, accountId,
                  segmentId, ops⟩
              if forwardOk then ⟨200, .sent, some segmentId, 1, 0, some payload⟩
              else ⟨500, .failed, none, 1, 0, some payload⟩
        | _, _ => ⟨200, .missingBoth, none, 0, 0, none⟩

/-- The `POST /api/webhook` handler of the v2 variant (part_000 lines
490-624).  `fetch` is the event-type lookup oracle passed to
`getEventTypeName`. -/
def variant2Handler (body? : Option Json) (fetch : Except Unit Json)
    (accountId : String) (forwardOk : Bool) : HandlerOut :=
  match body? with
  | none => ⟨400, .badJson, none, 0, 0, none⟩
  | some body =>
    if !(jsTruthy (some body)) then ⟨400, .badJson, none, 0, 0, none⟩
    else
      let n := normalize2 body
      if !(isStrV n.event "invitee.created") then ⟨200, .ignored, none, 0, 0, none⟩
      else if !(jsTruthy n.invitee) then ⟨200, .missingInvitee, none, 0, 0, none⟩
      else if !(jsTruthy n.eventData) then ⟨200, .missingEvent, none, 0, 0, none⟩
      else
        match n.invitee, n.eventData with
        | some inv, some ed =>
          let fullName := fullNameOrUnknown inv
          let email := jsOrV (inv.get? "email") (.str "")
          match v2Mobile n.questionsAnswers with
          | .error _ => ⟨500, .failed, none, 0, 0, none⟩
          | .ok mobile =>
            let eventTypeUrl := ed.get? "event_type"
            let fetches := if jsTruthy eventTypeUrl then 1 else 0
            let eventTypeName := getEventTypeName eventTypeUrl fetch
            match resolveSegment eventTypeName with
            | .error _ => ⟨500, .failed, none, 0, fetches, none⟩
            | .ok (segmentKey, segmentId) =>
              let qaList := (asArray n.questionsAnswers).getD []
              let fa := faFun qaList
              let city := mapCity fa segmentKey
              let address := mapAddress fa segmentKey
              match v2Otherparams qaList
                  (v2FixedMeta eventTypeName (ed.get? "uri")
                    (ed.get? "start_time") (ed.get? "end_time")) with
              | .error _ => ⟨500, .failed, none, 0, fetches, none⟩
              | .ok ops =>
                let payload : LeadPayload :=
                  ⟨fullName, email, mobile, city, address, accountId,
                    segmentId, ops⟩
                if forwardOk then
                  ⟨200, .sent, some segmentId, 1, fetches, some payload⟩
                else ⟨500, .failed, none, 1, fetches, some payload⟩
        | _, _ => ⟨200, .missingInvitee, none, 0, 0, none⟩

/-!
The index variant (src/index.js).  Its handler destructures
`{event, data}`, reads shape (b) only, has no signature check, no default
segment fallback (`segmentid: segmentId || ''`), truthiness-based
city/address selection, and unguarded loops that throw on malformed
entries.
-/

/-- Segment id written into the index variant's payload (index.js lines
64-65 and 102): a plain table lookup keyed by `String(eventTitle)` with the
empty string, not the default segment, as fallback. -/
def idxSegmentId (eventTitle : Option Json) : String :=
  jsOrStr (smLookup (jsToStringU eventTitle)) ""

/-- The index variant's two-key field selection
`formAnswers[k1] || formAnswers[k2] || ''` (index.js lines 84-92): plain
truthiness, no trimming. -/
def idxPick2 (fa : String → Option Json) (k1 k2 : String) : Json :=
  jsOrV (fa k1) (jsOrV (fa k2) (.str ""))

/-- The index variant's unguarded `formAnswers[qa.question] = qa.answer`
loop (index.js lines 72-74): a null entry throws; otherwise the key is
`String(qa.question)` (so an absent question stores under the key
`undefined`). -/
def idxFAStores : List Json → Except String (List (String × Option Json))
  | [] => .ok []
  | qa :: rest =>
    match qa with
    | .null => .error "TypeError"
    | _ =>
      match idxFAStores rest with
      | .ok tail => .ok ((jsToStringU (qa.get? "question"), qa.get? "answer") :: tail)
      | .error e => .error e

/-- The index variant's custom-field loop (index.js lines 107-117):
`qa.question.replace` throws unless the question is a string; empty-string
questions are kept; city/address questions are excluded; the raw answer
(possibly undefined) is the value. -/
def idxQaMeta : List Json → Except String (List MetaEntry)
  | [] => .ok []
  | qa :: rest =>
    match qa, qaQuestion qa with
    | .null, _ => .error "TypeError"
    | _, some (.str q) =>
      match idxQaMeta rest with
      | .ok tail =>
        if skipFields.contains q then .ok tail
        else .ok (⟨replaceWsRuns q '_', qa.get? "answer"⟩ :: tail)
      | .error e => .error e
    | _, _ => .error "TypeError"

/-- The body of the index variant's try block after the event check
(index.js lines 59-133), producing the TeleForce payload or the thrown
error. -/
def indexCore (data : Option Json) (accountId : String) :
    Except String LeadPayload :=
  match jsRequire data with
  | .error e => .error e
  | .ok d =>
    let invitee := d.get? "invitee"
    let eventData := d.get? "event"
    let qas := jsOrV (optGet (d.get? "payload") "questions_and_answers") (.arr [])
    match jsRequire eventData with
    | .error e => .error e
    | .ok ed =>
      let eventTitle := ed.get? "name"
      let segmentId := smLookup (jsToStringU eventTitle)
      match (match qas with
             | .arr l => Except.ok l
             | _ => Except.error "TypeError") with
      | .error e => .error e
      | .ok qasList =>
        match idxFAStores qasList with
        | .error e => .error e
        | .ok faList =>
          let fa : String → Option Json := fun k => (lastAssoc faList k).bind id
          match jsRequire invitee with
          | .error e => .error e
          | .ok inv =>
            let fullName := fullNameOrUnknown inv
            let email := jsOrV (inv.get? "email") (.str "")
            let mobile := jsOrV (inv.get? "text_reminder_number") (.str "")
            let city :=
              match fmLookup (jsToStringU eventTitle) with
              | some cfg =>
                idxPick2 fa (cfg.city.getD 0 "undefined") (cfg.city.getD 1 "undefined")
              | none => idxPick2 fa "City" "city"
            let address :=
              match fmLookup (jsToStringU eventTitle) with
              | some cfg =>
                idxPick2 fa (cfg.address.getD 0 "undefined")
                  (cfg.address.getD 1 "undefined")
              | none => idxPick2 fa "Address" "address"
            match idxQaMeta qasList with
            | .error e => .error e
            | .ok ops =>
              let fixed : List MetaEntry :=
                [⟨"Segment_Name", eventTitle⟩,
                 ⟨"Scheduled_Time", ed.get? "start_time"⟩,
                 ⟨"Timezone", inv.get? "timezone"⟩]
              .ok ⟨fullName, email, mobile, city, address, accountId,
                jsOrStr segmentId "", ops ++ fixed⟩

/-- The `POST /api/webhook` handler of the index variant (index.js lines
49-160).  The body is already JSON-parsed by the framework middleware. -/
def indexHandler (body : Json) (accountId : String) (forwardOk : Bool) :
    HandlerOut :=
  let event := body.get? "event"
  let data := body.get? "data"
  if !(isStrV event "invitee.created") then ⟨200, .ignored, none, 0, 0, none⟩
  else
    match indexCore data accountId with
    | .error _ => ⟨500, .failed, none, 0, 0, none⟩
    | .ok payload =>
      if forwardOk then ⟨200, .sent, none, 1, 0, some payload⟩
      else ⟨500, .failed, none, 1, 0, some payload⟩

/-!
Spec-side descriptions used to state the claims: inclusion policies and the
per-entry metadata transform, written from the specification's wording, to
be compared with the builders embedded from the source.
-/

/-- A Q/A entry is well formed when its question field is absent, null, or a
string (the shape Calendly sends); a truthy non-string question makes the
source's `replace` call throw instead. -/
def isWfQa (qa : Json) : Bool :=
  match qaQuestion qa with
  | none => true
  | some .null => true
  | some (.str _) => true
  | _ => false

/-- The v1 inclusion policy: a non-empty string question that is not one of
the consumed city/address keys. -/
def v1Keeps (qa : Json) : Bool :=
  match qaQuestion qa with
  | some (.str q) => !(q == "") && !(skipFields.contains q)
  | _ => false

/-- The v2 inclusion policy: a non-empty string question. -/
def v2Keeps (qa : Json) : Bool :=
  match qaQuestion qa with
  | some (.str q) => !(q == "")
  | _ => false

/-- The per-entry metadata transform stated by the specification: the key is
the question text with whitespace runs replaced by underscores, the value
the answer defaulted to the empty string when null or absent. -/
def qaToMeta (qa : Json) : MetaEntry :=
  match qaQuestion qa with
  | some (.str q) => ⟨replaceWsRuns q '_', some (jsNullish (qaAnswer qa) (.str ""))⟩
  | _ => ⟨"", some (.str "")⟩

/-- The presence test stated by the specification for city/address answers:
defined, non-null and non-empty after string coercion and trimming. -/
def answerPresent (fa : String → Option Json) (k : String) : Bool :=
  match fa k with
  | none => false
  | some .null => false
  | some v => !(jsTrim (jsToString v) == "")

/-- A Q/A entry whose question is absent, null, or the empty string — the
cases the part_000 mappers skip silently. -/
def isBadQ (qa : Json) : Bool :=
  match qaQuestion qa with
  | none => true
  | some .null => true
  | some (.str q) => q == ""
  | _ => false

/-!
Concrete example inputs used by the counterexamples and witnesses below.
-/

/-- A shape-(b) body: invitee and event only under `data`. -/
def c2Body : Json :=
  .obj [("event", .str "invitee.created"),
        ("data", .obj [("invitee", .obj [("name", .str "Jane")]),
                       ("event", .obj [("name", .str "CRO")])])]

/-- A shape-(a) body for the v1 normalizer: fields under `payload`. -/
def c2BodyA : Json :=
  .obj [("event", .str "invitee.created"),
        ("payload", .obj [("invitee", .obj [("name", .str "Jane")]),
                          ("event", .obj [("name", .str "CRO")]),
                          ("questions_and_answers", .arr [])])]

/-- Form answers holding a whitespace-only preferred answer and a real
answer under the lowercase key. -/
def c4Fa : String → Option Json := fun k =>
  if k == "City" then some (.str "   ")
  else if k == "city" then some (.str "Austin")
  else none

/-- A Q/A list exercising both inclusion policies: a city answer, a custom
question with a spaced key, and a null-answered question. -/
def c3Qas : List Json :=
  [.obj [("question", .str "City"), ("answer", .str "Austin")],
   .obj [("question", .str "Company size"), ("answer", .str "10")],
   .obj [("question", .str "Budget"), ("answer", .null)]]

/-- A well-formed body whose event is not invitee.created. -/
def c6Body : Json :=
  .obj [("event", .str "invitee.canceled"),
        ("payload", .obj [("name", .str "Jane")])]

/-- A complete invitee.created body for the v2 variant, with an event-type
URL that needs the external lookup. -/
def c7Body : Json :=
  .obj [("event", .str "invitee.created"),
        ("payload", .obj
          [("name", .str "Jane"),
           ("email", .str "jane@x.com"),
           ("scheduled_event", .obj
             [("event_type", .str "https://api.calendly.com/event_types/X"),
              ("start_time", .str "2024-01-01T10:00:00Z")]),
           ("questions_and_answers", .arr [])])]

/-- An invitee with only a first name. -/
def c8Inv : Json := .obj [("first_name", .str "Jane")]

/-!
Helper lemmas.
-/

/-- A non-empty-or-empty string behaves the same on the two branches of
`eventTypeName || ''`. -/
theorem jsOrV_str_self (s : String) : jsOrV (some (.str s)) (.str "") = .str s := by
  by_cases h : s = ""
  · subst h; rfl
  · simp [jsOrV, jsTruthy, h]

/-- Truthiness of undefined, unfolded. -/
theorem jsTruthy_none : jsTruthy none = false := rfl

/-- Optional chaining on a falsy value yields undefined. -/
theorem optGet_of_falsy (a : Option Json) (k : String) (h : jsTruthy a = false) :
    optGet a k = none := by
  match a with
  | none => rfl
  | some .null => rfl
  | some (.bool b) => rfl
  | some (.num n) => rfl
  | some (.str s) => rfl
  | some (.arr l) => rfl
  | some (.obj f) => simp [jsTruthy] at h

/-- A successful property read forces the value to be an object, which is
truthy. -/
theorem jsTruthy_of_get (body : Json) (k : String) (v : Json)
    (h : body.get? k = some v) : jsTruthy (some body) = true := by
  match body with
  | .obj f => rfl
  | .null | .bool _ | .num _ | .str _ | .arr _ => simp [Json.get?] at h

/-- Q/A metadata: the v1 builder computes the filtered map of the
specification's transform on well-formed entries. -/
theorem v1QaMeta_eq (qas : List Json) (h : ∀ qa ∈ qas, isWfQa qa = true) :
    v1QaMeta qas = .ok ((qas.filter v1Keeps).map qaToMeta) := by
  induction qas with
  | nil => rfl
  | cons qa rest ih =>
    have hqa : isWfQa qa = true := h qa (by simp)
    have ihr := ih (fun x hx => h x (by simp [hx]))
    unfold isWfQa at hqa
    match hq : qaQuestion qa with
    | none => simp [v1QaMeta, hq, ihr, v1Keeps]
    | some .null => simp [v1QaMeta, hq, ihr, v1Keeps]
    | some (.str q) =>
      by_cases hempty : q = ""
      · subst hempty; simp [v1QaMeta, hq, ihr, v1Keeps]
      · by_cases hskip : skipFields.contains q
        · have hmem : q ∈ skipFields := by simpa using hskip
          simp [v1QaMeta, hq, ihr, v1Keeps, hempty, hskip, hmem]
        · have hmem : q ∉ skipFields := by simpa using hskip
          simp [v1QaMeta, hq, ihr, v1Keeps, hempty, hskip, hmem, qaToMeta]
    | some (.bool b) => rw [hq] at hqa; simp at hqa
    | some (.num n) => rw [hq] at hqa; simp at hqa
    | some (.arr l) => rw [hq] at hqa; simp at hqa
    | some (.obj f) => rw [hq] at hqa; simp at hqa

/-- Q/A metadata: the v2 builder computes the unfiltered-but-for-falsy map
of the specification's transform on well-formed entries. -/
theorem v2QaMeta_eq (qas : List Json) (h : ∀ qa ∈ qas, isWfQa qa = true) :
    v2QaMeta qas = .ok ((qas.filter v2Keeps).map qaToMeta) := by
  induction qas with
  | nil => rfl
  | cons qa rest ih =>
    have hqa : isWfQa qa = true := h qa (by simp)
    have ihr := ih (fun x hx => h x (by simp [hx]))
    unfold isWfQa at hqa
    match hq : qaQuestion qa with
    | none => simp [v2QaMeta, hq, ihr, v2Keeps]
    | some .null => simp [v2QaMeta, hq, ihr, v2Keeps]
    | some (.str q) =>
      by_cases hempty : q = ""
      · subst hempty; simp [v2QaMeta, hq, ihr, v2Keeps]
      · simp [v2QaMeta, hq, ihr, v2Keeps, hempty, qaToMeta]
    | some (.bool b) => rw [hq] at hqa; simp at hqa
    | some (.num n) => rw [hq] at hqa; simp at hqa
    | some (.arr l) => rw [hq] at hqa; simp at hqa
    | some (.obj f) => rw [hq] at hqa; simp at hqa

/-!
Claim C1.
-/

/-- C1 counterexample: in the index variant (index.js lines 64-65, 102) an
unknown event-type name resolves to the empty segment id, not to
SEGMENT_MAPPING.default_segment as the claim states. -/
theorem c1_counterexample :
    idxSegmentId (some (.str "Quarterly Review")) = "" ∧ "" ≠ defaultSegmentId :=
  ⟨rfl, by decide⟩

/-- C1 (amended): segment resolution is a deterministic pure function of
the event-type name in every variant; an unknown or empty name falls to the
default segment id in the keyword resolver (part_000 resolveSegment) and in
the v1 table lookup, while the index variant resolves an unknown or empty
name to the empty string instead of the default segment id. -/
theorem c1_segment_resolution_amended :
    (∀ s t : String, s = t →
      resolveSegment (some (.str s)) = resolveSegment (some (.str t)))
    ∧ (∀ s : String, strIncludes (jsToLower s) "cro" = false →
        strIncludes (jsToLower s) "performance" = false →
        resolveSegment (some (.str s)) = .ok ("default_segment", defaultSegmentId))
    ∧ resolveSegment none = .ok ("default_segment", defaultSegmentId)
    ∧ resolveSegment (some (.str "")) = .ok ("default_segment", defaultSegmentId)
    ∧ (∀ t : String, smLookup t = none → v1SegmentId (.str t) = defaultSegmentId)
    ∧ v1SegmentId (.str "") = defaultSegmentId
    ∧ (∀ t : String, smLookup t = none → idxSegmentId (some (.str t)) = "") := by
  refine ⟨fun s t hst => by rw [hst], fun s h1 h2 => ?_, rfl, rfl,
    fun t ht => ?_, rfl, fun t ht => ?_⟩
  · simp [resolveSegment, jsOrV_str_self, h1, h2, jsOrStr]
  · simp [v1SegmentId, jsToString, ht, jsOrStr]
  · simp [idxSegmentId, jsToStringU, jsToString, ht, jsOrStr]

/-- C1 witness: the amended theorem evaluated at the unknown name
"Quarterly Sync". -/
theorem c1_segment_resolution_amended_witness :
    (strIncludes (jsToLower "Quarterly Sync") "cro" = false
      ∧ strIncludes (jsToLower "Quarterly Sync") "performance" = false
      ∧ smLookup "Quarterly Sync" = none)
    ∧ resolveSegment (some (.str "Quarterly Sync"))
        = .ok ("default_segment", defaultSegmentId)
    ∧ v1SegmentId (.str "Quarterly Sync") = defaultSegmentId
    ∧ idxSegmentId (some (.str "Quarterly Sync")) = "" := by
  obtain ⟨-, h2, -, -, h5, -, h7⟩ := c1_segment_resolution_amended
  exact ⟨⟨by decide, by decide, by decide⟩,
    h2 "Quarterly Sync" (by decide) (by decide),
    h5 "Quarterly Sync" (by decide),
    h7 "Quarterly Sync" (by decide)⟩

/-!
Claim C2.
-/

/-- C2 counterexample: on a document that provides the invitee only under
shape (b) (`data.invitee`), the v2 normalizer (part_000 lines 426-439)
yields a null invitee instead of falling back to shape (b); the v1
normalizer does resolve it from `data`. -/
theorem c2_counterexample :
    (normalize2 c2Body).invitee = some Json.null
    ∧ (normalize1 c2Body).invitee = some (Json.obj [("name", Json.str "Jane")]) :=
  ⟨rfl, rfl⟩

/-- C2 (amended): the v1 normalizer resolves each of invitee, eventData and
questionsAndAnswers independently, preferring `payload.invitee`,
`payload.event` and `payload.questions_and_answers` and falling back to
`data.invitee`, `data.event` and `data.payload.questions_and_answers`
(then the empty array), so mixed-shape documents resolve field by field;
the v2 normalizer reads shape (a) only — the invitee is the `payload`
object itself and the event data `payload.scheduled_event` — and never
consults `data`. -/
theorem c2_normalizer_amended :
    (∀ body : Json,
      (jsTruthy (optGet (body.get? "payload") "invitee") = true →
        (normalize1 body).invitee = optGet (body.get? "payload") "invitee")
      ∧ (jsTruthy (optGet (body.get? "payload") "invitee") = false →
        (normalize1 body).invitee = optGet (body.get? "data") "invitee"))
    ∧ (∀ body : Json,
      (jsTruthy (optGet (body.get? "payload") "event") = true →
        (normalize1 body).eventData = optGet (body.get? "payload") "event")
      ∧ (jsTruthy (optGet (body.get? "payload") "event") = false →
        (normalize1 body).eventData = optGet (body.get? "data") "event"))
    ∧ (∀ body : Json,
      (jsTruthy (optGet (body.get? "payload") "questions_and_answers") = true →
        (normalize1 body).questionsAnswers
          = optGet (body.get? "payload") "questions_and_answers")
      ∧ (jsTruthy (optGet (body.get? "payload") "questions_and_answers") = false →
        jsTruthy (optGet (optGet (body.get? "data") "payload") "questions_and_answers")
          = true →
        (normalize1 body).questionsAnswers
          = optGet (optGet (body.get? "data") "payload") "questions_and_answers")
      ∧ (jsTruthy (optGet (body.get? "payload") "questions_and_answers") = false →
        jsTruthy (optGet (optGet (body.get? "data") "payload") "questions_and_answers")
          = false →
        (normalize1 body).questionsAnswers = some (Json.arr [])))
    ∧ (∀ b1 b2 : Json, b1.get? "event" = b2.get? "event" →
        b1.get? "payload" = b2.get? "payload" → normalize2 b1 = normalize2 b2)
    ∧ (∀ body : Json, jsTruthy (body.get? "payload") = true →
        (normalize2 body).invitee = body.get? "payload")
    ∧ (∀ body : Json,
        jsTruthy (optGet (body.get? "payload") "scheduled_event") = true →
        (normalize2 body).eventData = optGet (body.get? "payload") "scheduled_event")
    ∧ (∀ body : Json,
        jsTruthy (optGet (body.get? "payload") "scheduled_event") = false →
        (normalize2 body).eventData = some Json.null) := by
  refine ⟨fun body => ⟨fun h => ?_, fun h => ?_⟩,
    fun body => ⟨fun h => ?_, fun h => ?_⟩,
    fun body => ⟨fun h => ?_, fun h h2 => ?_, fun h h2 => ?_⟩,
    fun b1 b2 he hp => ?_, fun body h => ?_, fun body h => ?_, fun body h => ?_⟩
  · simp [normalize1, jsOrJ, h]
  · simp [normalize1, jsOrJ, h]
  · simp [normalize1, jsOrJ, h]
  · simp [normalize1, jsOrJ, h]
  · simp [normalize1, jsOrJ, h]
  · simp [normalize1, jsOrJ, h, h2, jsTruthy_none, optGet_of_falsy _ "collection" h]
  · simp [normalize1, jsOrJ, h, h2, jsTruthy_none, optGet_of_falsy _ "collection" h]
  · simp [normalize2, he, hp]
  · simp [normalize2, jsOrJ, h]
  · simp [normalize2, jsOrJ, h]
  · simp [normalize2, jsOrJ, h]

/-- C2 witness: the amended theorem evaluated on a shape-(a) document and
on the mixed document `c2Body`. -/
theorem c2_normalizer_amended_witness :
    (jsTruthy (optGet (c2BodyA.get? "payload") "invitee") = true
      ∧ jsTruthy (optGet (c2Body.get? "payload") "invitee") = false
      ∧ jsTruthy (c2BodyA.get? "payload") = true)
    ∧ (normalize1 c2BodyA).invitee = optGet (c2BodyA.get? "payload") "invitee"
    ∧ (normalize1 c2Body).invitee = optGet (c2Body.get? "data") "invitee"
    ∧ (normalize2 c2BodyA).invitee = c2BodyA.get? "payload" := by
  obtain ⟨h1, -, -, -, h5, -, -⟩ := c2_normalizer_amended
  refine ⟨⟨rfl, rfl, rfl⟩, (h1 c2BodyA).1 rfl, (h1 c2Body).2 rfl, h5 c2BodyA rfl⟩

/-!
Claim C3.
-/

/-- C3: on well-formed question entries, every entry included under the
variant's inclusion policy appears exactly once in `otherparams` as the
specification's {meta_key, meta_value} pair — key with whitespace runs
replaced by underscores, value the answer defaulted to the empty string —
in the input's relative order, and the fixed metadata entries follow them
in their fixed order: the built list is exactly the filtered map of the
per-entry transform followed by the fixed list, for the v1 exclusion
policy and for the v2 keep-everything policy. -/
theorem c3_qa_roundtrip (qas : List Json) (h : ∀ qa ∈ qas, isWfQa qa = true)
    (eventTitle email : Json) (startTime tz eventTypeName uri endTime : Option Json) :
    v1Otherparams qas (v1FixedMeta eventTitle startTime email tz)
      = .ok ((qas.filter v1Keeps).map qaToMeta
          ++ v1FixedMeta eventTitle startTime email tz)
    ∧ v2Otherparams qas (v2FixedMeta eventTypeName uri startTime endTime)
      = .ok ((qas.filter v2Keeps).map qaToMeta
          ++ v2FixedMeta eventTypeName uri startTime endTime) := by
  constructor
  · unfold v1Otherparams
    rw [v1QaMeta_eq qas h]
  · unfold v2Otherparams
    rw [v2QaMeta_eq qas h]

/-- C3 witness: the round-trip theorem evaluated on the concrete Q/A list
`c3Qas` (the City entry is excluded by v1, kept by v2; the null-answered
Budget entry gets an empty meta value in both). -/
theorem c3_qa_roundtrip_witness :
    (∀ qa ∈ c3Qas, isWfQa qa = true)
    ∧ v1Otherparams c3Qas (v1FixedMeta (.str "CRO") (some (.str "T")) (.str "e@x") none)
      = .ok ((c3Qas.filter v1Keeps).map qaToMeta
          ++ v1FixedMeta (.str "CRO") (some (.str "T")) (.str "e@x") none)
    ∧ v2Otherparams c3Qas (v2FixedMeta (some (.str "CRO")) none (some (.str "T")) none)
      = .ok ((c3Qas.filter v2Keeps).map qaToMeta
          ++ v2FixedMeta (some (.str "CRO")) none (some (.str "T")) none) := by
  have hwf : ∀ qa ∈ c3Qas, isWfQa qa = true := by decide
  obtain ⟨h1, h2⟩ := c3_qa_roundtrip c3Qas hwf (.str "CRO") (.str "e@x")
    (some (.str "T")) none (some (.str "CRO")) none none
  exact ⟨hwf, h1, h2⟩

/-!
Claim C4.
-/

/-- C4 counterexample: with a whitespace-only answer under the preferred
key "City" and a real answer under "city", the index variant's truthiness
chain (index.js lines 84-92) returns the whitespace answer, while the
claimed rule (the part_000 `pickFirst`) returns "Austin". -/
theorem c4_counterexample :
    idxPick2 c4Fa "City" "city" = .str "   "
    ∧ pickFirst c4Fa ["City", "city"] = .str "Austin"
    ∧ Json.str "   " ≠ Json.str "Austin" :=
  ⟨rfl, rfl, by simp⟩

/-- C4 (amended): in the part_000 variants, the mapped city/address is
computed by `pickFirst` over the configured ordered key list — the first
key whose answer is defined, non-null and non-empty after string coercion
and trimming wins, the empty string results when every key fails, and the
per-segment lists coincide with the generic two-key lists, so a lowercase-
only answer resolves even though the capitalized key is preferred; the
index variant instead tests plain truthiness without trimming, so a
whitespace-only answer under an earlier key is returned as-is. -/
theorem c4_pickfirst_amended :
    (∀ fa : String → Option Json, ∀ pre post : List String, ∀ k : String, ∀ v : Json,
      (∀ k2 ∈ pre, answerPresent fa k2 = false) →
      answerPresent fa k = true → fa k = some v →
      pickFirst fa (pre ++ k :: post) = v)
    ∧ (∀ fa : String → Option Json, ∀ keys : List String,
      (∀ k ∈ keys, answerPresent fa k = false) → pickFirst fa keys = .str "")
    ∧ (∀ fa : String → Option Json, ∀ cfgKey : String,
      mapCity fa cfgKey = pickFirst fa ["City", "city"])
    ∧ (∀ fa : String → Option Json, ∀ cfgKey : String,
      mapAddress fa cfgKey = pickFirst fa ["Address", "address"])
    ∧ (∀ fa : String → Option Json, ∀ v : Json,
      fa "City" = none → fa "city" = some v → answerPresent fa "city" = true →
      pickFirst fa ["City", "city"] = v)
    ∧ (∀ fa : String → Option Json, ∀ v : Json, ∀ k1 k2 : String,
      fa k1 = some v → jsTruthy (some v) = true → idxPick2 fa k1 k2 = v) := by
  have hfirst : ∀ fa : String → Option Json, ∀ pre post : List String,
      ∀ k : String, ∀ v : Json,
      (∀ k2 ∈ pre, answerPresent fa k2 = false) →
      answerPresent fa k = true → fa k = some v →
      pickFirst fa (pre ++ k :: post) = v := by
    intro fa pre post k v hpre hk hv
    induction pre with
    | nil =>
      simp only [List.nil_append, pickFirst]
      rw [hv]
      unfold answerPresent at hk
      rw [hv] at hk
      match v, hk with
      | .bool b, hk => simp_all [pickFirst]
      | .num n, hk => simp_all [pickFirst]
      | .str s, hk => simp_all [pickFirst]
      | .arr l, hk => simp_all [pickFirst]
      | .obj f, hk => simp_all [pickFirst]
    | cons p rest ih =>
      have hp := hpre p (by simp)
      have hrest : ∀ k2 ∈ rest, answerPresent fa k2 = false :=
        fun k2 hk2 => hpre k2 (by simp [hk2])
      unfold answerPresent at hp
      simp only [List.cons_append, pickFirst]
      match hfp : fa p with
      | none => exact ih hrest
      | some .null => exact ih hrest
      | some (.bool b) => rw [hfp] at hp; simp_all [ih hrest]
      | some (.num n) => rw [hfp] at hp; simp_all [ih hrest]
      | some (.str s) => rw [hfp] at hp; simp_all [ih hrest]
      | some (.arr l) => rw [hfp] at hp; simp_all [ih hrest]
      | some (.obj f) => rw [hfp] at hp; simp_all [ih hrest]
  have hnone : ∀ fa : String → Option Json, ∀ keys : List String,
      (∀ k ∈ keys, answerPresent fa k = false) → pickFirst fa keys = .str "" := by
    intro fa keys hall
    induction keys with
    | nil => rfl
    | cons p rest ih =>
      have hp := hall p (by simp)
      have hrest : ∀ k ∈ rest, answerPresent fa k = false :=
        fun k hk => hall k (by simp [hk])
      unfold answerPresent at hp
      simp only [pickFirst]
      match hfp : fa p with
      | none => exact ih hrest
      | some .null => exact ih hrest
      | some (.bool b) => rw [hfp] at hp; simp_all [ih hrest]
      | some (.num n) => rw [hfp] at hp; simp_all [ih hrest]
      | some (.str s) => rw [hfp] at hp; simp_all [ih hrest]
      | some (.arr l) => rw [hfp] at hp; simp_all [ih hrest]
      | some (.obj f) => rw [hfp] at hp; simp_all [ih hrest]
  refine ⟨hfirst, hnone, ?_, ?_, ?_, ?_⟩
  · intro fa cfgKey
    unfold mapCity fmLookup FORM_MAPPINGS
    simp only [List.find?]
    by_cases h1 : ("CRO" == cfgKey) = true
    · simp [h1]
    · by_cases h2 : ("Performance" == cfgKey) = true
      · simp [h1, h2]
      · simp [h1, h2]
  · intro fa cfgKey
    unfold mapAddress fmLookup FORM_MAPPINGS
    simp only [List.find?]
    by_cases h1 : ("CRO" == cfgKey) = true
    · simp [h1]
    · by_cases h2 : ("Performance" == cfgKey) = true
      · simp [h1, h2]
      · simp [h1, h2]
  · intro fa v hCity hcity hp
    have : ∀ k2 ∈ ["City"], answerPresent fa k2 = false := by
      intro k2 hk2
      simp at hk2
      subst hk2
      unfold answerPresent
      rw [hCity]
    exact hfirst fa ["City"] [] "city" v this hp hcity
  · intro fa v k1 k2 hv ht
    unfold idxPick2
    rw [hv]
    simp [jsOrV, ht]

/-- C4 witness: the amended theorem evaluated at the concrete form-answer
map `c4Fa` (whitespace-only "City", real lowercase "city"). -/
theorem c4_pickfirst_amended_witness :
    (answerPresent c4Fa "City" = false
      ∧ answerPresent c4Fa "city" = true
      ∧ c4Fa "city" = some (.str "Austin"))
    ∧ pickFirst c4Fa ["City", "city"] = .str "Austin"
    ∧ mapCity c4Fa "CRO" = pickFirst c4Fa ["City", "city"]
    ∧ pickFirst c4Fa ["Nope"] = .str "" := by
  obtain ⟨h1, h2, h3, -, -, -⟩ := c4_pickfirst_amended
  refine ⟨⟨by decide, by decide, rfl⟩, ?_, h3 c4Fa "CRO", ?_⟩
  · exact h1 c4Fa ["City"] [] "city" (.str "Austin")
      (by intro k2 hk2; simp at hk2; subst hk2; decide) (by decide) rfl
  · exact h2 c4Fa ["Nope"] (by intro k hk; simp at hk; subst hk; decide)

/-!
Claim C5.
-/

/-- C5: for every HMAC function, raw body, header and key, the verifier is
a total boolean function and returns false whenever the header is missing
or empty, the key is unset or empty, or the header lacks a component whose
trimmed text starts with t= or with v1=. -/
theorem c5_signature_guards :
    (∀ hm : String → String → String, ∀ raw : String, ∀ key : Option String,
      verifyCalendlySignature hm raw none key = false)
    ∧ (∀ hm : String → String → String, ∀ raw : String, ∀ key : Option String,
      verifyCalendlySignature hm raw (some "") key = false)
    ∧ (∀ hm : String → String → String, ∀ raw : String, ∀ hdr : Option String,
      verifyCalendlySignature hm raw hdr none = false)
    ∧ (∀ hm : String → String → String, ∀ raw : String, ∀ hdr : Option String,
      verifyCalendlySignature hm raw hdr (some "") = false)
    ∧ (∀ hm : String → String → String, ∀ raw hdr : String, ∀ key : Option String,
      (jsSplit hdr ',').find? (fun p => strStarts (jsTrim p) "t=") = none →
      verifyCalendlySignature hm raw (some hdr) key = false)
    ∧ (∀ hm : String → String → String, ∀ raw hdr : String, ∀ key : Option String,
      (jsSplit hdr ',').find? (fun p => strStarts (jsTrim p) "v1=") = none →
      verifyCalendlySignature hm raw (some hdr) key = false)
    ∧ (∀ hm : String → String → String, ∀ raw : String, ∀ hdr key : Option String,
      verifyCalendlySignature hm raw hdr key = true
        ∨ verifyCalendlySignature hm raw hdr key = false) := by
  refine ⟨fun hm raw key => rfl, fun hm raw key => rfl,
    fun hm raw hdr => ?_, fun hm raw hdr => ?_,
    fun hm raw hdr key ht => ?_, fun hm raw hdr key hv => ?_,
    fun hm raw hdr key => ?_⟩
  · unfold verifyCalendlySignature
    simp [jsTruthyStr]
  · unfold verifyCalendlySignature
    cases hdr with
    | none => simp [jsTruthyStr]
    | some h => simp [jsTruthyStr]
  · unfold verifyCalendlySignature
    by_cases hg : (!jsTruthyStr (some hdr) || !jsTruthyStr key) = true
    · simp [hg]
    · simp [hg, ht]
  · unfold verifyCalendlySignature
    by_cases hg : (!jsTruthyStr (some hdr) || !jsTruthyStr key) = true
    · simp [hg]
    · cases htp : (jsSplit hdr ',').find? (fun p => strStarts (jsTrim p) "t=") with
      | none => simp [hg, htp]
      | some tp => simp [hg, htp, hv]
  · cases hb : verifyCalendlySignature hm raw hdr key
    · exact Or.inr rfl
    · exact Or.inl rfl

/-- C5 witness: a header with a t= part but no v1= part verifies false, and
the guard cases evaluated concretely. -/
theorem c5_signature_guards_witness :
    ((jsSplit "t=123,v2=abc" ',').find? (fun p => strStarts (jsTrim p) "v1=") = none)
    ∧ verifyCalendlySignature (fun _ _ => "deadbeef") "body"
        (some "t=123,v2=abc") (some "key") = false
    ∧ verifyCalendlySignature (fun _ _ => "deadbeef") "body" none (some "key") = false
    ∧ verifyCalendlySignature (fun _ _ => "deadbeef") "body"
        (some "t=1,v1=ab") none = false := by
  obtain ⟨g1, -, g3, -, -, g6, -⟩ := c5_signature_guards
  exact ⟨by decide,
    g6 (fun _ _ => "deadbeef") "body" "t=123,v2=abc" (some "key") (by decide),
    g1 (fun _ _ => "deadbeef") "body" (some "key"),
    g3 (fun _ _ => "deadbeef") "body" (some "t=1,v1=ab")⟩

/-!
Claim C6.
-/

/-- C6: for every well-formed JSON envelope whose event field is a string
other than invitee.created, each handler (the v1 handler when its optional
signature gate is disabled or passes, the v2 handler, and the index
handler) responds 200 with the Event-ignored branch and performs no
downstream forward POST and no event-type fetch. -/
theorem c6_event_ignored (body : Json) (e : String)
    (hev : body.get? "event" = some (.str e)) (hne : e ≠ "invitee.created")
    (sigEnabled sigOk : Bool) (hsig : sigEnabled = false ∨ sigOk = true)
    (acc : String) (fwd : Bool) (fetch : Except Unit Json) :
    variant1Handler sigEnabled sigOk (some body) acc fwd
      = ⟨200, .ignored, none, 0, 0, none⟩
    ∧ variant2Handler (some body) fetch acc fwd = ⟨200, .ignored, none, 0, 0, none⟩
    ∧ indexHandler body acc fwd = ⟨200, .ignored, none, 0, 0, none⟩
    ∧ Resp.message .ignored = "Event ignored" := by
  have htr : jsTruthy (some body) = true := jsTruthy_of_get body "event" _ hev
  have hsig2 : (sigEnabled && !sigOk) = false := by
    rcases hsig with h | h <;> simp [h]
  have hstr : isStrV (body.get? "event") "invitee.created" = false := by
    rw [hev]; simp [isStrV, hne]
  refine ⟨?_, ?_, ?_, rfl⟩
  · simp [variant1Handler, htr, hsig2, normalize1, hstr]
  · simp [variant2Handler, htr, normalize2, hstr]
  · simp [indexHandler, hstr]

/-- C6 witness: a concrete invitee.canceled envelope is acknowledged as
ignored by all three handlers with no outbound call. -/
theorem c6_event_ignored_witness :
    (c6Body.get? "event" = some (.str "invitee.canceled")
      ∧ "invitee.canceled" ≠ "invitee.created")
    ∧ variant1Handler false true (some c6Body) "ACC" true
        = ⟨200, .ignored, none, 0, 0, none⟩
    ∧ variant2Handler (some c6Body) (.error ()) "ACC" true
        = ⟨200, .ignored, none, 0, 0, none⟩
    ∧ indexHandler c6Body "ACC" true = ⟨200, .ignored, none, 0, 0, none⟩ := by
  obtain ⟨h1, h2, h3, -⟩ := c6_event_ignored c6Body "invitee.canceled" rfl
    (by decide) false true (Or.inl rfl) "ACC" true (.error ())
  exact ⟨⟨rfl, by decide⟩, h1, h2, h3⟩

/-!
Claim C7.
-/

/-- An event-type fetch failure resolves the name to null. -/
theorem getEventTypeName_error (url : Option Json) :
    getEventTypeName url (.error ()) = none := by
  unfold getEventTypeName
  by_cases h : jsTruthy url = true
  · simp [h]
  · simp [h]

/-- A fetch whose response body carries no resource name also resolves the
name to null. -/
theorem getEventTypeName_noName (url : Option Json) :
    getEventTypeName url (.ok (.obj [])) = none := by
  unfold getEventTypeName
  by_cases h : jsTruthy url = true
  · simp [h, optGet, Json.get?, lastAssoc, jsTruthy]
  · simp [h]

/-- C7: when the event-type lookup fails (network error, timeout, non-2xx,
or a missing URL) the resolver yields a null name, the null name falls
through to the default segment id, the whole v2 handler behaves exactly as
if the lookup had merely found no name, and on a concrete complete request
the webhook still forwards (one POST) with the default segment. -/
theorem c7_lookup_failure_graceful :
    (∀ url : Option Json, getEventTypeName url (.error ()) = none)
    ∧ resolveSegment none = .ok ("default_segment", defaultSegmentId)
    ∧ (∀ body? : Option Json, ∀ acc : String, ∀ fwd : Bool,
        variant2Handler body? (.error ()) acc fwd
          = variant2Handler body? (.ok (.obj [])) acc fwd)
    ∧ (variant2Handler (some c7Body) (.error ()) "ACC" true).status = 200
    ∧ (variant2Handler (some c7Body) (.error ()) "ACC" true).resp = .sent
    ∧ (variant2Handler (some c7Body) (.error ()) "ACC" true).segmentid
        = some defaultSegmentId
    ∧ (variant2Handler (some c7Body) (.error ()) "ACC" true).posts = 1 := by
  refine ⟨getEventTypeName_error, rfl, fun body? acc fwd => ?_, rfl, rfl, rfl, rfl⟩
  unfold variant2Handler
  simp only [getEventTypeName_error, getEventTypeName_noName]

/-!
Claim C8.
-/

/-- C8 counterexample: for an invitee with only a first name, the index and
v2 mappers (index.js line 76, part_000 line 531) produce "Unknown" instead
of the claimed first-name fallback, which the v1 mapper does produce. -/
theorem c8_counterexample :
    fullNameOrUnknown c8Inv = .str "Unknown" ∧ v1FullName c8Inv = .str "Jane" :=
  ⟨rfl, rfl⟩

/-- C8 (amended): the v1 mapper prefers the full-name field when truthy,
else the first/last concatenation joined with one space (omitting absent
parts), else the literal Unknown; the index and v2 mappers use the
full-name field when truthy and otherwise go straight to Unknown, never
consulting first or last name. -/
theorem c8_name_amended :
    (∀ inv v : Json, inv.get? "name" = some v → jsTruthy (some v) = true →
      v1FullName inv = v ∧ fullNameOrUnknown inv = v)
    ∧ (∀ inv : Json, jsTruthy (inv.get? "name") = false → v1JoinedName inv ≠ "" →
      v1FullName inv = .str (v1JoinedName inv))
    ∧ (∀ inv : Json, jsTruthy (inv.get? "name") = false → v1JoinedName inv = "" →
      v1FullName inv = .str "Unknown")
    ∧ (∀ inv : Json, ∀ f l : String,
      inv.get? "first_name" = some (.str f) → f ≠ "" →
      inv.get? "last_name" = some (.str l) → l ≠ "" →
      v1JoinedName inv = f ++ " " ++ l)
    ∧ (∀ inv : Json, ∀ f : String,
      inv.get? "first_name" = some (.str f) → f ≠ "" →
      jsTruthy (inv.get? "last_name") = false →
      v1JoinedName inv = f)
    ∧ (∀ inv : Json, jsTruthy (inv.get? "name") = false →
      fullNameOrUnknown inv = .str "Unknown") := by
  refine ⟨fun inv v hv ht => ?_, fun inv hn hj => ?_, fun inv hn hj => ?_,
    fun inv f l hf hfne hl hlne => ?_, fun inv f hf hfne hl => ?_,
    fun inv hn => ?_⟩
  · constructor
    · unfold v1FullName
      rw [hv]
      simp [jsOrV, ht]
    · unfold fullNameOrUnknown
      rw [hv]
      simp [jsOrV, ht]
  · have hj2 : jsTruthy (some (.str (v1JoinedName inv))) = true := by
      simp [jsTruthy, hj]
    unfold v1FullName
    cases hv : inv.get? "name" with
    | none => simp [jsOrV, hj2]
    | some v =>
      rw [hv] at hn
      simp [jsOrV, hn, hj2]
  · have hj2 : jsTruthy (some (.str (v1JoinedName inv))) = false := by
      simp [jsTruthy, hj]
    unfold v1FullName
    cases hv : inv.get? "name" with
    | none => simp [jsOrV, hj2]
    | some v =>
      rw [hv] at hn
      simp [jsOrV, hn, hj2]
  · have h1 : jsTruthy (some (.str f)) = true := by simp [jsTruthy, hfne]
    have h2 : jsTruthy (some (.str l)) = true := by simp [jsTruthy, hlne]
    unfold v1JoinedName
    rw [hf, hl]
    simp [h1, h2, jsToStringU, jsToString, joinSpace]
  · have h1 : jsTruthy (some (.str f)) = true := by simp [jsTruthy, hfne]
    unfold v1JoinedName
    rw [hf]
    cases hl2 : inv.get? "last_name" with
    | none => simp [h1, jsTruthy_none, jsToStringU, jsToString, joinSpace]
    | some w =>
      rw [hl2] at hl
      simp [h1, hl, jsToStringU, jsToString, joinSpace]
  · unfold fullNameOrUnknown
    cases hv : inv.get? "name" with
    | none => simp [jsOrV]
    | some v =>
      rw [hv] at hn
      simp [jsOrV, hn]

/-- C8 witness: the amended theorem evaluated on concrete invitees. -/
theorem c8_name_amended_witness :
    ((Json.obj [("name", .str "Jane Doe")]).get? "name" = some (.str "Jane Doe")
      ∧ jsTruthy (some (.str "Jane Doe")) = true
      ∧ jsTruthy ((Json.obj [("first_name", .str "Ada"),
          ("last_name", .str "Lovelace")]).get? "name") = false)
    ∧ v1FullName (.obj [("name", .str "Jane Doe")]) = .str "Jane Doe"
    ∧ v1JoinedName (.obj [("first_name", .str "Ada"), ("last_name", .str "Lovelace")])
        = "Ada" ++ " " ++ "Lovelace"
    ∧ fullNameOrUnknown (.obj [("first_name", .str "Ada"),
        ("last_name", .str "Lovelace")]) = .str "Unknown" := by
  obtain ⟨h1, -, -, h4, -, h6⟩ := c8_name_amended
  refine ⟨⟨rfl, by decide, by decide⟩,
    (h1 (.obj [("name", .str "Jane Doe")]) (.str "Jane Doe") rfl (by decide)).1,
    h4 (.obj [("first_name", .str "Ada"), ("last_name", .str "Lovelace")])
      "Ada" "Lovelace" rfl (by decide) rfl (by decide),
    h6 (.obj [("first_name", .str "Ada"), ("last_name", .str "Lovelace")])
      (by decide)⟩

/-!
Claim C9.
-/

/-- C9: any event-type name containing both the cro and the performance
keywords case-insensitively resolves to the CRO segment, because the cro
test comes first in the fixed priority order, independently of the rest of
the name. -/
theorem c9_keyword_priority (s : String)
    (hc : strIncludes (jsToLower s) "cro" = true)
    (hp : strIncludes (jsToLower s) "performance" = true) :
    resolveSegment (some (.str s)) = .ok ("CRO", croSegmentId) := by
  unfold resolveSegment
  rw [jsOrV_str_self]
  simp [hc, smLookup, SEGMENT_MAPPING, jsOrStr, croSegmentId, List.find?]

/-- C9 witness: the tie-break evaluated on the name "cro performance". -/
theorem c9_keyword_priority_witness :
    (strIncludes (jsToLower "cro performance") "cro" = true
      ∧ strIncludes (jsToLower "cro performance") "performance" = true)
    ∧ resolveSegment (some (.str "cro performance")) = .ok ("CRO", croSegmentId) :=
  ⟨⟨by decide, by decide⟩,
    c9_keyword_priority "cro performance" (by decide) (by decide)⟩

/-!
Claim C10.
-/

/-- Inserting an entry with an absent, null, or empty question anywhere
leaves every stored form answer unchanged. -/
theorem lastStore_skips_bad (l1 l2 : List Json) (qa : Json)
    (hbad : isBadQ qa = true) (k : String) :
    lastStore (l1 ++ qa :: l2) k = lastStore (l1 ++ l2) k := by
  induction l1 with
  | nil =>
    simp only [List.nil_append]
    cases hrec : lastStore l2 k with
    | some r => simp [lastStore, hrec]
    | none =>
      unfold isBadQ at hbad
      match hq : qaQuestion qa with
      | none => simp [lastStore, hrec, hq]
      | some .null => simp [lastStore, hrec, hq, jsTruthy]
      | some (.str q) =>
        rw [hq] at hbad
        simp at hbad
        subst hbad
        simp [lastStore, hrec, hq, jsTruthy]
      | some (.bool b) => rw [hq] at hbad; simp at hbad
      | some (.num n) => rw [hq] at hbad; simp at hbad
      | some (.arr l) => rw [hq] at hbad; simp at hbad
      | some (.obj f) => rw [hq] at hbad; simp at hbad
  | cons x l1 ih =>
    simp only [List.cons_append, lastStore, List.append_eq, ih]

/-- Inserting an entry with an absent, null, or empty question anywhere
leaves the v1 metadata builder's output unchanged (in particular it does
not make it throw). -/
theorem v1QaMeta_skips_bad (l1 l2 : List Json) (qa : Json)
    (hbad : isBadQ qa = true) :
    v1QaMeta (l1 ++ qa :: l2) = v1QaMeta (l1 ++ l2) := by
  induction l1 with
  | nil =>
    simp only [List.nil_append]
    unfold isBadQ at hbad
    match hq : qaQuestion qa with
    | none => simp [v1QaMeta, hq]
    | some .null => simp [v1QaMeta, hq]
    | some (.str q) =>
      rw [hq] at hbad
      simp at hbad
      subst hbad
      simp [v1QaMeta, hq]
    | some (.bool b) => rw [hq] at hbad; simp at hbad
    | some (.num n) => rw [hq] at hbad; simp at hbad
    | some (.arr l) => rw [hq] at hbad; simp at hbad
    | some (.obj f) => rw [hq] at hbad; simp at hbad
  | cons x l1 ih =>
    simp only [List.cons_append]
    match hq : qaQuestion x with
    | none => simp [v1QaMeta, hq, ih]
    | some .null => simp [v1QaMeta, hq, ih]
    | some (.str q) => simp [v1QaMeta, hq, ih]
    | some (.bool b) => cases b <;> simp [v1QaMeta, hq, ih]
    | some (.num n) => by_cases hn : (n == 0) = true <;> simp [v1QaMeta, hq, hn, ih]
    | some (.arr l) => simp [v1QaMeta, hq]
    | some (.obj f) => simp [v1QaMeta, hq]

/-- Inserting an entry with an absent, null, or empty question anywhere
leaves the v2 metadata builder's output unchanged. -/
theorem v2QaMeta_skips_bad (l1 l2 : List Json) (qa : Json)
    (hbad : isBadQ qa = true) :
    v2QaMeta (l1 ++ qa :: l2) = v2QaMeta (l1 ++ l2) := by
  induction l1 with
  | nil =>
    simp only [List.nil_append]
    unfold isBadQ at hbad
    match hq : qaQuestion qa with
    | none => simp [v2QaMeta, hq]
    | some .null => simp [v2QaMeta, hq]
    | some (.str q) =>
      rw [hq] at hbad
      simp at hbad
      subst hbad
      simp [v2QaMeta, hq]
    | some (.bool b) => rw [hq] at hbad; simp at hbad
    | some (.num n) => rw [hq] at hbad; simp at hbad
    | some (.arr l) => rw [hq] at hbad; simp at hbad
    | some (.obj f) => rw [hq] at hbad; simp at hbad
  | cons x l1 ih =>
    simp only [List.cons_append]
    match hq : qaQuestion x with
    | none => simp [v2QaMeta, hq, ih]
    | some .null => simp [v2QaMeta, hq, ih]
    | some (.str q) => simp [v2QaMeta, hq, ih]
    | some (.bool b) => cases b <;> simp [v2QaMeta, hq, ih]
    | some (.num n) => by_cases hn : (n == 0) = true <;> simp [v2QaMeta, hq, hn, ih]
    | some (.arr l) => simp [v2QaMeta, hq]
    | some (.obj f) => simp [v2QaMeta, hq]

/-- C10: an entry whose question is absent, null, or empty contributes
neither to the form-answers lookup nor to either part_000 otherparams
builder, and never makes them throw — inserting it anywhere changes
nothing — while an entry with a real question but a null or undefined
answer is emitted with the empty string as its meta value. -/
theorem c10_bad_question_skipped :
    (∀ l1 l2 : List Json, ∀ qa : Json, isBadQ qa = true → ∀ k : String,
      faFun (l1 ++ qa :: l2) k = faFun (l1 ++ l2) k)
    ∧ (∀ l1 l2 : List Json, ∀ qa : Json, isBadQ qa = true →
      v1QaMeta (l1 ++ qa :: l2) = v1QaMeta (l1 ++ l2))
    ∧ (∀ l1 l2 : List Json, ∀ qa : Json, isBadQ qa = true →
      v2QaMeta (l1 ++ qa :: l2) = v2QaMeta (l1 ++ l2))
    ∧ (∀ qa : Json, ∀ q : String, ∀ rest : List Json,
      qaQuestion qa = some (.str q) → q ≠ "" →
      (qaAnswer qa = none ∨ qaAnswer qa = some .null) →
      v2QaMeta (qa :: rest) = (v2QaMeta rest).map
        (fun tail => ⟨replaceWsRuns q '_', some (.str "")⟩ :: tail))
    ∧ (∀ qa : Json, ∀ q : String, ∀ rest : List Json,
      qaQuestion qa = some (.str q) → q ≠ "" → skipFields.contains q = false →
      (qaAnswer qa = none ∨ qaAnswer qa = some .null) →
      v1QaMeta (qa :: rest) = (v1QaMeta rest).map
        (fun tail => ⟨replaceWsRuns q '_', some (.str "")⟩ :: tail)) := by
  refine ⟨fun l1 l2 qa hbad k => ?_,
    v1QaMeta_skips_bad, v2QaMeta_skips_bad,
    fun qa q rest hq hne han => ?_, fun qa q rest hq hne hskip han => ?_⟩
  · unfold faFun
    rw [lastStore_skips_bad l1 l2 qa hbad k]
  · have hval : jsNullish (qaAnswer qa) (.str "") = .str "" := by
      rcases han with h | h <;> rw [h] <;> rfl
    cases hrest : v2QaMeta rest with
    | ok tail => simp [v2QaMeta, hq, hne, hrest, hval, Except.map]
    | error e => simp [v2QaMeta, hq, hne, hrest, Except.map]
  · have hval : jsNullish (qaAnswer qa) (.str "") = .str "" := by
      rcases han with h | h <;> rw [h] <;> rfl
    have hmem : q ∉ skipFields := by simpa using hskip
    cases hrest : v1QaMeta rest with
    | ok tail => simp [v1QaMeta, hq, hne, hmem, hrest, hval, Except.map]
    | error e => simp [v1QaMeta, hq, hne, hmem, hrest, Except.map]

/-- C10 witness: the skipping and defaulting behaviour evaluated on
concrete entries — a question-less entry inserted between two others
changes nothing, and a null-answered question is emitted with an empty
value. -/
theorem c10_bad_question_skipped_witness :
    (isBadQ (.obj [("answer", .str "ignored")]) = true
      ∧ qaQuestion (.obj [("question", .str "Budget range"), ("answer", .null)])
          = some (.str "Budget range")
      ∧ qaAnswer (.obj [("question", .str "Budget range"), ("answer", .null)])
          = some .null)
    ∧ (∀ k : String,
        faFun [.obj [("question", .str "City"), ("answer", .str "Austin")],
               .obj [("answer", .str "ignored")]] k
          = faFun [.obj [("question", .str "City"), ("answer", .str "Austin")]] k)
    ∧ v2QaMeta [.obj [("question", .str "Budget range"), ("answer", .null)]]
        = .ok [⟨replaceWsRuns "Budget range" '_', some (.str "")⟩] := by
  obtain ⟨h1, -, -, h4, -⟩ := c10_bad_question_skipped
  refine ⟨⟨rfl, rfl, rfl⟩, ?_, ?_⟩
  · intro k
    exact h1 [.obj [("question", .str "City"), ("answer", .str "Austin")]] []
      (.obj [("answer", .str "ignored")]) rfl k
  · have := h4 (.obj [("question", .str "Budget range"), ("answer", .null)])
      "Budget range" [] rfl (by decide) (Or.inr rfl)
    simpa [Except.map] using this
